import Mathlib

/-!
Formal model of `src/main/sensors/gyro.c` (gyro calibration state machine and
filter pipeline orchestration), as a shallow embedding in Lean 4.

Modelling conventions:
* Machine integers are modelled by `Int` / `Nat`.  The one place where the
  16-bit width of `calibratingG` is semantically relevant (the countdown and
  the return type of `gyroCalculateCalibratingCycles`, both `uint16_t`) is
  modelled explicitly with `% 65536`.  The `int32_t` accumulators cannot wrap
  for any input in the sensor's range (at most 65535 summands of magnitude at
  most 32768 is below 2^31), so they are modelled as unbounded `Int`.
* `float` values are modelled as exact rationals `ℚ`.  The conversion
  `(float)gyroADC[axis]` is exact for the magnitudes reachable here
  (well below 2^24).
* Code external to `src/` (the sensor driver, `alignSensors`, the statistics
  helpers of `common/maths.c`, the filter kernels of `common/filter.c`, and
  the C library's `lrintf`) is modelled either as explicit parameters of the
  configuration record or, where a claim depends on it, by a definition whose
  doc comment starts with `Modelled from the spec:`.
-/

/-- Per-axis triple (the C arrays indexed by `X`, `Y`, `Z`; `XYZ_AXIS_COUNT = 3`). -/
structure Triple (α : Type) where
  x : α
  y : α
  z : α
deriving DecidableEq

/-- Modelled from the spec: `CALIBRATING_GYRO_CYCLES` (the spec's `BASE_CYCLES`)
is the constant `1000` from `sensors/gyro.h`, which is not under `src/`; the
spec fixes `BASE_CYCLES = 1000`. -/
def CALIBRATING_GYRO_CYCLES : ℕ := 1000

/-- Modelled from the spec: the incremental mean/variance accumulator `stdev_t`
of `common/maths.c` (not under `src/`): sample count, running mean, and the
running sum of squared deviations (Welford), over exact rationals. -/
structure DevState where
  n : ℕ
  m : ℚ
  s : ℚ
deriving DecidableEq

/-- Modelled from the spec: `devClear` resets the accumulator (`m_n = 0`). -/
def devClear : DevState := ⟨0, 0, 0⟩

/-- Modelled from the spec: `devPush` performs one incremental mean/variance
update (Welford's recurrence, one sample at a time, constant memory). -/
def devPush (d : DevState) (xi : ℤ) : DevState :=
  let n' := d.n + 1
  if n' = 1 then ⟨1, (xi : ℚ), 0⟩
  else
    let m' := d.m + ((xi : ℚ) - d.m) / (n' : ℚ)
    ⟨n', m', d.s + ((xi : ℚ) - d.m) * ((xi : ℚ) - m')⟩

/-- Modelled from the spec: `devVariance` — sample variance `S/(n-1)` for
`n > 1`, else `0`. -/
def devVariance (d : DevState) : ℚ :=
  if 1 < d.n then d.s / ((d.n - 1 : ℕ) : ℚ) else 0

/-- Modelled from the spec: the deviation test `devStandardDeviation(&var) >
threshold` of the source, with `devStandardDeviation = sqrt(devVariance)`.
Since square roots are not rational, the strict comparison is modelled by the
exact-real equivalent `devVariance > threshold^2` (the threshold is an
unsigned integer, and the variance is nonnegative). -/
def movementExceeds (threshold : ℕ) (d : DevState) : Prop :=
  (threshold : ℚ) ^ 2 < devVariance d

instance (threshold : ℕ) (d : DevState) : Decidable (movementExceeds threshold d) := by
  unfold movementExceeds
  infer_instance

/-- Modelled from the spec: `FILTER_PT1` of `common/filter.h` (not under
`src/`); only its distinctness from `FILTER_BIQUAD` matters here. -/
def FILTER_PT1 : ℕ := 0

/-- Modelled from the spec: `FILTER_BIQUAD` of `common/filter.h`. -/
def FILTER_BIQUAD : ℕ := 1

/-- Modelled from the spec: `lrintf` (C library, default `FE_TONEAREST`
rounding environment): round to the nearest integer, ties to even. -/
def rint (q : ℚ) : ℤ :=
  if q - (⌊q⌋ : ℚ) < 1 / 2 then ⌊q⌋
  else if 1 / 2 < q - (⌊q⌋ : ℚ) then ⌊q⌋ + 1
  else if ⌊q⌋ % 2 = 0 then ⌊q⌋ else ⌊q⌋ + 1

/-- The spec's `round_nearest_ties_away_from_zero`. -/
def roundTiesAway (q : ℚ) : ℤ :=
  if 0 ≤ q then ⌊q + 1 / 2⌋ else ⌈q - 1 / 2⌉

/-- The spec's `round_half_up(sum / totalCycles)`: the real quotient rounded
to the nearest integer with halves rounded up. -/
def roundHalfUpDiv (s : ℤ) (c : ℕ) : ℤ :=
  ⌊(s : ℚ) / (c : ℚ) + 1 / 2⌋

/-- Configuration and external collaborators of the subsystem.  The fields up
to `gyroSoftLpfType` are the module-level configuration of `gyro.c`
(`gyro.targetLooptime`, `gyroConfig->gyroMovementCalibrationThreshold`, and
the `gyroUseConfig` parameters).  `align` models the external `alignSensors`
transform, and the five `*Apply` fields model the per-axis filter kernels of
`common/filter.c` (not under `src/`) as state transformers on an abstract
filter-state type `σ` returning the updated state and the float output. -/
structure GyroCfg (σ : Type) where
  targetLooptime : ℕ
  gyroMovementCalibrationThreshold : ℕ
  gyroSoftLpfHz : ℕ
  gyroSoftLpfType : ℕ
  gyroSoftNotchHz1 : ℕ
  gyroSoftNotchHz2 : ℕ
  align : Triple ℤ → Triple ℤ
  biquadLPFApply : Fin 3 → σ → ℚ → σ × ℚ
  pt1Apply : Fin 3 → σ → ℚ → σ × ℚ
  firApply : Fin 3 → σ → ℚ → σ × ℚ
  notch1Apply : Fin 3 → σ → ℚ → σ × ℚ
  notch2Apply : Fin 3 → σ → ℚ → σ × ℚ

/-- The mutable state of `gyro.c`: the published integer outputs `gyroADC`,
the published float outputs `gyroADCf`, the committed offsets `gyroZero`, the
`uint16_t` countdown `calibratingG`, the function-local static accumulators
`g` and `var` of `performGyroCalibration`, and the filter states. -/
structure GyroState (σ : Type) where
  gyroADC : Triple ℤ
  gyroADCf : Triple ℚ
  gyroZero : Triple ℤ
  calibratingG : ℕ
  g : Triple ℤ
  var : Triple DevState
  fstate : σ

/-- The initial state: all statics zero-initialised (`calibratingG = 0`,
`gyroZero = {0,0,0}`). -/
def initState (σ : Type) (f0 : σ) : GyroState σ :=
  { gyroADC := ⟨0, 0, 0⟩
    gyroADCf := ⟨0, 0, 0⟩
    gyroZero := ⟨0, 0, 0⟩
    calibratingG := 0
    g := ⟨0, 0, 0⟩
    var := ⟨devClear, devClear, devClear⟩
    fstate := f0 }

/-- `isGyroCalibrationComplete`: `calibratingG == 0`. -/
def isGyroCalibrationComplete {σ : Type} (s : GyroState σ) : Bool :=
  s.calibratingG == 0

/-- `gyroCalculateCalibratingCycles`:
`(CALIBRATING_GYRO_CYCLES / gyro.targetLooptime) * CALIBRATING_GYRO_CYCLES`,
computed in 32-bit arithmetic (exact, the value is at most 10^6) and then
truncated to the `uint16_t` return type. -/
def gyroCalculateCalibratingCycles {σ : Type} (cfg : GyroCfg σ) : ℕ :=
  (CALIBRATING_GYRO_CYCLES / cfg.targetLooptime * CALIBRATING_GYRO_CYCLES) % 65536

/-- `isOnFirstGyroCalibrationCycle`: `calibratingG == gyroCalculateCalibratingCycles()`. -/
def isOnFirstGyroCalibrationCycle {σ : Type} (cfg : GyroCfg σ) (calG : ℕ) : Bool :=
  calG == gyroCalculateCalibratingCycles cfg

/-- `isOnFinalGyroCalibrationCycle`: `calibratingG == 1`. -/
def isOnFinalGyroCalibrationCycle (calG : ℕ) : Bool :=
  calG == 1

/-- `gyroSetCalibrationCycles`: `calibratingG = gyroCalculateCalibratingCycles()`. -/
def gyroSetCalibrationCycles {σ : Type} (cfg : GyroCfg σ) (s : GyroState σ) : GyroState σ :=
  { s with calibratingG := gyroCalculateCalibratingCycles cfg }

/-- The `uint16_t` decrement `calibratingG--` (wrapping at zero). -/
def dec16 (v : ℕ) : ℕ :=
  (v + 65535) % 65536

/-- The offset committed on the final cycle:
`(g[axis] + (gyroCalculateCalibratingCycles() / 2)) / gyroCalculateCalibratingCycles()`.
Both divisions are C integer divisions: the `uint16_t` cycle count is
promoted to `int`, `/ 2` is exact division of a nonnegative value, and the
outer division of the possibly negative `int32_t` sum truncates toward zero
(`Int.tdiv`). -/
def commitOffset (tc : ℕ) (gsum : ℤ) : ℤ :=
  Int.tdiv (gsum + ((tc / 2 : ℕ) : ℤ)) (tc : ℤ)

/-- `performGyroCalibration`, with the `for (axis = 0..2)` loop unrolled (the
bound `XYZ_AXIS_COUNT = 3` is a compile-time constant).  Each axis: reset the
accumulators on the first cycle, accumulate sum and variance, zero the
published `gyroADC` and `gyroZero` entries, and on the final cycle either
restart (movement detected: `gyroSetCalibrationCycles(); return;` — the early
`return` skips the remaining axes and the decrement) or commit the offset.
The `beeper(BEEPER_GYRO_CALIBRATED)` call is an external side effect with no
state relevant here. -/
def performGyroCalibration {σ : Type} (cfg : GyroCfg σ) (s : GyroState σ) : GyroState σ :=
  let tc := gyroCalculateCalibratingCycles cfg
  let thr := cfg.gyroMovementCalibrationThreshold
  let first := isOnFirstGyroCalibrationCycle cfg s.calibratingG
  let final := isOnFinalGyroCalibrationCycle s.calibratingG
  -- axis X
  let gx := (if first then 0 else s.g.x) + s.gyroADC.x
  let vx := devPush (if first then devClear else s.var.x) s.gyroADC.x
  if final ∧ thr ≠ 0 ∧ movementExceeds thr vx then
    { s with g := ⟨gx, s.g.y, s.g.z⟩, var := ⟨vx, s.var.y, s.var.z⟩,
             gyroADC := ⟨0, s.gyroADC.y, s.gyroADC.z⟩,
             gyroZero := ⟨0, s.gyroZero.y, s.gyroZero.z⟩,
             calibratingG := tc }
  else
    let zx := if final then commitOffset tc gx else 0
    -- axis Y
    let gy := (if first then 0 else s.g.y) + s.gyroADC.y
    let vy := devPush (if first then devClear else s.var.y) s.gyroADC.y
    if final ∧ thr ≠ 0 ∧ movementExceeds thr vy then
      { s with g := ⟨gx, gy, s.g.z⟩, var := ⟨vx, vy, s.var.z⟩,
               gyroADC := ⟨0, 0, s.gyroADC.z⟩,
               gyroZero := ⟨zx, 0, s.gyroZero.z⟩,
               calibratingG := tc }
    else
      let zy := if final then commitOffset tc gy else 0
      -- axis Z
      let gz := (if first then 0 else s.g.z) + s.gyroADC.z
      let vz := devPush (if first then devClear else s.var.z) s.gyroADC.z
      if final ∧ thr ≠ 0 ∧ movementExceeds thr vz then
        { s with g := ⟨gx, gy, gz⟩, var := ⟨vx, vy, vz⟩,
                 gyroADC := ⟨0, 0, 0⟩,
                 gyroZero := ⟨zx, zy, 0⟩,
                 calibratingG := tc }
      else
        let zz := if final then commitOffset tc gz else 0
        { s with g := ⟨gx, gy, gz⟩, var := ⟨vx, vy, vz⟩,
                 gyroADC := ⟨0, 0, 0⟩,
                 gyroZero := ⟨zx, zy, zz⟩,
                 calibratingG := dec16 s.calibratingG }

/-- One axis of the software filter chain (`gyroUpdate`, lines 189–203):
primary stage selected by `gyroSoftLpfType`, then notch 1 if its centre
frequency is nonzero, then notch 2 if its centre frequency is nonzero. -/
def applyAxisFilter {σ : Type} (cfg : GyroCfg σ) (ax : Fin 3) (st : σ) (v : ℤ) : σ × ℚ :=
  let p1 :=
    if cfg.gyroSoftLpfType = FILTER_BIQUAD then cfg.biquadLPFApply ax st (v : ℚ)
    else if cfg.gyroSoftLpfType = FILTER_PT1 then cfg.pt1Apply ax st (v : ℚ)
    else cfg.firApply ax st (v : ℚ)
  let p2 := if cfg.gyroSoftNotchHz1 ≠ 0 then cfg.notch1Apply ax p1.1 p1.2 else p1
  let p3 := if cfg.gyroSoftNotchHz2 ≠ 0 then cfg.notch2Apply ax p2.1 p2.2 else p2
  p3

/-- The filtering tail of `gyroUpdate` (lines 183–210).  With the primary
low-pass enabled (`gyroSoftLpfHz != 0`) every axis runs the chain, publishes
the float output, and publishes `lrintf` of it as the integer output.  With
the primary disabled, the float output is the integer sample cast to float
and the integer output (and all filter state) is left as it was. -/
def gyroApplyFilters {σ : Type} (cfg : GyroCfg σ) (s : GyroState σ) : GyroState σ :=
  if cfg.gyroSoftLpfHz ≠ 0 then
    let px := applyAxisFilter cfg 0 s.fstate s.gyroADC.x
    let py := applyAxisFilter cfg 1 px.1 s.gyroADC.y
    let pz := applyAxisFilter cfg 2 py.1 s.gyroADC.z
    { s with gyroADCf := ⟨px.2, py.2, pz.2⟩,
             gyroADC := ⟨rint px.2, rint py.2, rint pz.2⟩,
             fstate := pz.1 }
  else
    { s with gyroADCf := ⟨(s.gyroADC.x : ℚ), (s.gyroADC.y : ℚ), (s.gyroADC.z : ℚ)⟩ }

/-- Lines 169–173 of `gyroUpdate`: store the raw triple into `gyroADC`
(`gyroADC[X] = gyroADCRaw[X]; ...`) and apply the external alignment
transform in place (`alignSensors(gyroADC, gyroAlign)`). -/
def gyroStoreAligned {σ : Type} (cfg : GyroCfg σ) (raw : Triple ℤ) (s : GyroState σ) :
    GyroState σ :=
  { s with gyroADC := cfg.align ⟨raw.x, raw.y, raw.z⟩ }

/-- Lines 179–181 of `gyroUpdate`: `gyroADC[axis] -= gyroZero[axis]`. -/
def gyroSubtractZero {σ : Type} (s : GyroState σ) : GyroState σ :=
  { s with gyroADC := ⟨s.gyroADC.x - s.gyroZero.x,
                       s.gyroADC.y - s.gyroZero.y,
                       s.gyroADC.z - s.gyroZero.z⟩ }

/-- The head of `gyroUpdate` for an available sample (lines 169–181): store
the raw triple into `gyroADC`, align it, run the calibration step if
calibration is not complete, and subtract the committed offsets. -/
def gyroUpdatePre {σ : Type} (cfg : GyroCfg σ) (raw : Triple ℤ) (s : GyroState σ) : GyroState σ :=
  gyroSubtractZero
    (if isGyroCalibrationComplete (gyroStoreAligned cfg raw s)
     then gyroStoreAligned cfg raw s
     else performGyroCalibration cfg (gyroStoreAligned cfg raw s))

/-- `gyroUpdate`: one tick.  `read = none` models the sensor-read capability
reporting unavailable (`!gyro.read(...)`), in which case the tick returns at
once and the state is untouched. -/
def gyroUpdate {σ : Type} (cfg : GyroCfg σ) (read : Option (Triple ℤ)) (s : GyroState σ) :
    GyroState σ :=
  match read with
  | none => s
  | some raw => gyroApplyFilters cfg (gyroUpdatePre cfg raw s)

/-- Run a sequence of ticks, all with an available sample. -/
def runTicks {σ : Type} (cfg : GyroCfg σ) : List (Triple ℤ) → GyroState σ → GyroState σ
  | [], s => s
  | r :: rs, s => runTicks cfg rs (gyroUpdate cfg (some r) s)

/-- Run a sequence of ticks, each either an available sample or unavailable. -/
def runTicksO {σ : Type} (cfg : GyroCfg σ) : List (Option (Triple ℤ)) → GyroState σ → GyroState σ
  | [], s => s
  | r :: rs, s => runTicksO cfg rs (gyroUpdate cfg r s)

/-- The Welford accumulator after pushing a whole list of samples. -/
def welfordOf (l : List ℤ) : DevState :=
  l.foldl devPush devClear

/-- Mid-window invariant of a calibration run: after processing the aligned
samples `done` (at least one, not yet the final cycle) from a fresh window,
the countdown has decreased by `done.length`, the static accumulators hold
exactly the sums and Welford pushes of `done`, and the committed offsets are
zeroed. -/
def MidWindow {σ : Type} (cfg : GyroCfg σ) (s : GyroState σ) (done : List (Triple ℤ)) : Prop :=
  s.calibratingG = gyroCalculateCalibratingCycles cfg - done.length ∧
  s.g.x = (done.map Triple.x).sum ∧
  s.g.y = (done.map Triple.y).sum ∧
  s.g.z = (done.map Triple.z).sum ∧
  s.var.x = welfordOf (done.map Triple.x) ∧
  s.var.y = welfordOf (done.map Triple.y) ∧
  s.var.z = welfordOf (done.map Triple.z) ∧
  s.gyroZero = ⟨0, 0, 0⟩

/-- The offsets a full calibration window commits, as a function of the
configuration and the window's raw samples only. -/
def calibCommitSpec {σ : Type} (cfg : GyroCfg σ) (ins : List (Triple ℤ)) : Triple ℤ :=
  let tc := gyroCalculateCalibratingCycles cfg
  ⟨commitOffset tc ((ins.map (fun r => (cfg.align r).x)).sum),
   commitOffset tc ((ins.map (fun r => (cfg.align r).y)).sum),
   commitOffset tc ((ins.map (fun r => (cfg.align r).z)).sum)⟩

/-- Identity filter kernel used to instantiate unused filter slots of
concrete configurations. -/
def passQ : Fin 3 → Unit → ℚ → Unit × ℚ := fun _ st q => (st, q)

/-- Configuration of the spec's concrete calibration scenario:
`targetLooptime = 1000`, `movementThreshold = 0`, software low-pass and both
notches disabled, identity alignment. -/
def cfgC1 : GyroCfg Unit :=
  { targetLooptime := 1000
    gyroMovementCalibrationThreshold := 0
    gyroSoftLpfHz := 0
    gyroSoftLpfType := 0
    gyroSoftNotchHz1 := 0
    gyroSoftNotchHz2 := 0
    align := id
    biquadLPFApply := passQ
    pt1Apply := passQ
    firApply := passQ
    notch1Apply := passQ
    notch2Apply := passQ }

/-- The constant aligned raw triple of the spec's concrete scenario. -/
def rawC1 : Triple ℤ := ⟨100, -50, 0⟩

/-- The concrete scenario: begin calibration from the initial state and feed
`rawC1` for `n` ticks. -/
def c1run (n : ℕ) : GyroState Unit :=
  runTicks cfgC1 (List.replicate n rawC1) (gyroSetCalibrationCycles cfgC1 (initState Unit ()))

/-- Like `cfgC1` but with a nonzero movement-rejection threshold. -/
def cfgC3 : GyroCfg Unit :=
  { cfgC1 with gyroMovementCalibrationThreshold := 6 }

/-- Inputs that keep the X axis perfectly steady at 100 and disturb only the
Y axis on the very last calibration cycle. -/
def c3ins : List (Triple ℤ) :=
  List.replicate 999 ⟨100, 0, 0⟩ ++ [⟨100, 200, 0⟩]

/-- The C3 scenario state just before its final calibration cycle. -/
def c3mid : GyroState Unit :=
  runTicks cfgC3 (List.replicate 999 ⟨100, 0, 0⟩) (gyroSetCalibrationCycles cfgC3 (initState Unit ()))

/-- A full calibration window under `cfgC3` fed with `c3ins`: the Y-axis
deviation check fails on the final cycle after the X-axis offset has already
been committed. -/
def c3run : GyroState Unit :=
  runTicks cfgC3 c3ins (gyroSetCalibrationCycles cfgC3 (initState Unit ()))

/-- An instance of the spec-modelled single-pole low-pass kernel: output
`prev + k*(x - prev)` with held state `prev = 0` and coefficient `k = 1/2`
(the held state is irrelevant for a single tick, so it is not threaded).
A two-sample moving-average FIR denoiser produces the same half-integer
outputs. -/
def half1Apply : Fin 3 → Unit → ℚ → Unit × ℚ := fun _ st q => (st, q / 2)

/-- Configuration with the PT1 primary stage enabled and the kernel
instantiated by `half1Apply`; notches disabled. -/
def cfgC7 : GyroCfg Unit :=
  { cfgC1 with gyroSoftLpfHz := 1, gyroSoftLpfType := FILTER_PT1, pt1Apply := half1Apply }

/-- One calibrated tick under `cfgC7` with raw sample `(1, 1, 1)`. -/
def c7run : GyroState Unit :=
  gyroUpdate cfgC7 (some ⟨1, 1, 1⟩) (initState Unit ())

/-- Like `cfgC1` but with both notch centre frequencies configured nonzero
(the primary low-pass still disabled). -/
def cfgC6w : GyroCfg Unit :=
  { cfgC1 with gyroSoftNotchHz1 := 200, gyroSoftNotchHz2 := 100 }

/-- A state on the final calibration cycle whose Y-axis accumulator will
report movement for the sample `200`. -/
def c5wState : GyroState Unit :=
  { initState Unit () with calibratingG := 1, var := ⟨devClear, ⟨1, 0, 0⟩, devClear⟩ }

/-- A state mid-calibration (countdown 5) used to witness the non-final-cycle
behaviour. -/
def c4wState : GyroState Unit :=
  { initState Unit () with calibratingG := 5, gyroZero := ⟨9, 8, 7⟩ }

/-- A calibration-complete state with nonzero committed offsets. -/
def c8wState : GyroState Unit :=
  { initState Unit () with gyroZero := ⟨3, -4, 5⟩, gyroADC := ⟨11, 12, 13⟩ }

/-- A begin-calibration witness state carrying stale accumulator contents
from an abandoned earlier window. -/
def c9wState : GyroState Unit :=
  { initState Unit () with calibratingG := 37, g := ⟨123, -456, 789⟩,
                           var := ⟨⟨5, 7, 9⟩, ⟨2, 11, 13⟩, devClear⟩ }

/-! ### Basic lemmas -/

/-- `lrintf` of an exact integer is that integer. -/
theorem rint_intCast (n : ℤ) : rint ((n : ℤ) : ℚ) = n := by
  unfold rint
  simp

/-- Away from exact half-integers, round-to-nearest-even and
round-to-nearest-ties-away-from-zero agree. -/
theorem rint_eq_roundTiesAway (q : ℚ) (h : q - (⌊q⌋ : ℚ) ≠ 1 / 2) :
    rint q = roundTiesAway q := by
  have hfl : (⌊q⌋ : ℚ) ≤ q := Int.floor_le q
  have hfu : q < (⌊q⌋ : ℚ) + 1 := Int.lt_floor_add_one q
  unfold rint roundTiesAway
  rcases lt_trichotomy (q - (⌊q⌋ : ℚ)) (1 / 2) with hlt | heq | hgt
  · have hf : ⌊q + 1 / 2⌋ = ⌊q⌋ := by
      rw [Int.floor_eq_iff]
      refine ⟨by linarith, ?_⟩
      linarith
    have hc : ⌈q - 1 / 2⌉ = ⌊q⌋ := by
      rw [Int.ceil_eq_iff]
      refine ⟨?_, by linarith⟩
      linarith
    rw [if_pos hlt]
    split_ifs with h0
    · exact hf.symm
    · exact hc.symm
  · exact absurd heq h
  · have hf : ⌊q + 1 / 2⌋ = ⌊q⌋ + 1 := by
      rw [Int.floor_eq_iff]
      constructor
      · push_cast
        linarith
      · push_cast
        linarith
    have hc : ⌈q - 1 / 2⌉ = ⌊q⌋ + 1 := by
      rw [Int.ceil_eq_iff]
      constructor
      · push_cast
        linarith
      · push_cast
        linarith
    rw [if_neg (by linarith), if_pos hgt]
    split_ifs with h0
    · exact hf.symm
    · exact hc.symm

/-- The cycle count fits in `uint16_t` by construction. -/
theorem gyroCalc_lt {σ : Type} (cfg : GyroCfg σ) :
    gyroCalculateCalibratingCycles cfg < 65536 :=
  Nat.mod_lt _ (by decide)

/-- The cycle count is even: it is a truncation of a multiple of `1000`
modulo the even constant `65536`. -/
theorem gyroCalc_even {σ : Type} (cfg : GyroCfg σ) :
    gyroCalculateCalibratingCycles cfg % 2 = 0 := by
  unfold gyroCalculateCalibratingCycles CALIBRATING_GYRO_CYCLES
  have h : 1000 / cfg.targetLooptime * 1000 % 65536 % 2 =
      1000 / cfg.targetLooptime * 1000 % 2 := Nat.mod_mod_of_dvd _ (by norm_num)
  omega

/-- The `uint16_t` decrement does not wrap on a nonzero in-range value. -/
theorem dec16_eq (v : ℕ) (h1 : 1 ≤ v) (h2 : v < 65536) : dec16 v = v - 1 := by
  unfold dec16
  have h : v + 65535 = (v - 1) + 1 * 65536 := by omega
  rw [h, Nat.add_mul_mod_self_right]
  omega

/-- For an even positive cycle count and a nonnegative biased numerator, the
committed offset is exactly the spec's round-half-up of the mean. -/
theorem commitOffset_eq_roundHalfUp (tc : ℕ) (gsum : ℤ) (h0 : 0 < tc)
    (h2 : tc % 2 = 0) (hnn : 0 ≤ gsum + ((tc / 2 : ℕ) : ℤ)) :
    commitOffset tc gsum = roundHalfUpDiv gsum tc := by
  unfold commitOffset roundHalfUpDiv
  obtain ⟨d, hd⟩ : ∃ d, tc = 2 * d := ⟨tc / 2, by omega⟩
  have hdpos : 0 < d := by omega
  have hhalf : (tc / 2 : ℕ) = d := by omega
  have hq : (gsum : ℚ) / (tc : ℚ) + 1 / 2 =
      ((gsum + ((tc / 2 : ℕ) : ℤ) : ℤ) : ℚ) / ((tc : ℕ) : ℚ) := by
    subst hd
    rw [hhalf]
    have hdq : ((d : ℕ) : ℚ) ≠ 0 := by positivity
    push_cast
    field_simp
    ring
  rw [hq, Rat.floor_intCast_div_natCast]
  exact Int.tdiv_eq_ediv hnn (by positivity)

theorem filters_preserve {σ : Type} (cfg : GyroCfg σ) (s : GyroState σ) :
    (gyroApplyFilters cfg s).gyroZero = s.gyroZero ∧
    (gyroApplyFilters cfg s).calibratingG = s.calibratingG ∧
    (gyroApplyFilters cfg s).g = s.g ∧
    (gyroApplyFilters cfg s).var = s.var := by
  unfold gyroApplyFilters
  split_ifs <;> simp

theorem perform_mid {σ : Type} (cfg : GyroCfg σ) (s : GyroState σ)
    (hfin : s.calibratingG ≠ 1)
    (hfst : s.calibratingG ≠ gyroCalculateCalibratingCycles cfg) :
    performGyroCalibration cfg s =
      { s with g := ⟨s.g.x + s.gyroADC.x, s.g.y + s.gyroADC.y, s.g.z + s.gyroADC.z⟩,
               var := ⟨devPush s.var.x s.gyroADC.x, devPush s.var.y s.gyroADC.y,
                       devPush s.var.z s.gyroADC.z⟩,
               gyroADC := ⟨0, 0, 0⟩, gyroZero := ⟨0, 0, 0⟩,
               calibratingG := dec16 s.calibratingG } := by
  unfold performGyroCalibration isOnFirstGyroCalibrationCycle isOnFinalGyroCalibrationCycle
  simp [hfin, hfst]

theorem dec16_one : dec16 1 = 0 := by decide

theorem perform_first {σ : Type} (cfg : GyroCfg σ) (s : GyroState σ)
    (hfst : s.calibratingG = gyroCalculateCalibratingCycles cfg)
    (hfin : s.calibratingG ≠ 1) :
    performGyroCalibration cfg s =
      { s with g := ⟨s.gyroADC.x, s.gyroADC.y, s.gyroADC.z⟩,
               var := ⟨devPush devClear s.gyroADC.x, devPush devClear s.gyroADC.y,
                       devPush devClear s.gyroADC.z⟩,
               gyroADC := ⟨0, 0, 0⟩, gyroZero := ⟨0, 0, 0⟩,
               calibratingG := dec16 s.calibratingG } := by
  have hfin' : gyroCalculateCalibratingCycles cfg ≠ 1 := hfst ▸ hfin
  unfold performGyroCalibration isOnFirstGyroCalibrationCycle isOnFinalGyroCalibrationCycle
  simp [hfst, hfin']

theorem perform_final_pass {σ : Type} (cfg : GyroCfg σ) (s : GyroState σ)
    (hfin : s.calibratingG = 1)
    (hfst : gyroCalculateCalibratingCycles cfg ≠ 1)
    (hx : ¬(cfg.gyroMovementCalibrationThreshold ≠ 0 ∧
        movementExceeds cfg.gyroMovementCalibrationThreshold (devPush s.var.x s.gyroADC.x)))
    (hy : ¬(cfg.gyroMovementCalibrationThreshold ≠ 0 ∧
        movementExceeds cfg.gyroMovementCalibrationThreshold (devPush s.var.y s.gyroADC.y)))
    (hz : ¬(cfg.gyroMovementCalibrationThreshold ≠ 0 ∧
        movementExceeds cfg.gyroMovementCalibrationThreshold (devPush s.var.z s.gyroADC.z))) :
    performGyroCalibration cfg s =
      { s with g := ⟨s.g.x + s.gyroADC.x, s.g.y + s.gyroADC.y, s.g.z + s.gyroADC.z⟩,
               var := ⟨devPush s.var.x s.gyroADC.x, devPush s.var.y s.gyroADC.y,
                       devPush s.var.z s.gyroADC.z⟩,
               gyroADC := ⟨0, 0, 0⟩,
               gyroZero := ⟨commitOffset (gyroCalculateCalibratingCycles cfg) (s.g.x + s.gyroADC.x),
                            commitOffset (gyroCalculateCalibratingCycles cfg) (s.g.y + s.gyroADC.y),
                            commitOffset (gyroCalculateCalibratingCycles cfg) (s.g.z + s.gyroADC.z)⟩,
               calibratingG := 0 } := by
  have hfst' : (1 : ℕ) ≠ gyroCalculateCalibratingCycles cfg := Ne.symm hfst
  unfold performGyroCalibration isOnFirstGyroCalibrationCycle isOnFinalGyroCalibrationCycle
  simp [hfin, hfst', hx, hy, hz, dec16]

theorem perform_final_restart_x {σ : Type} (cfg : GyroCfg σ) (s : GyroState σ)
    (hfin : s.calibratingG = 1)
    (hfst : gyroCalculateCalibratingCycles cfg ≠ 1)
    (hthr : cfg.gyroMovementCalibrationThreshold ≠ 0)
    (hmx : movementExceeds cfg.gyroMovementCalibrationThreshold (devPush s.var.x s.gyroADC.x)) :
    performGyroCalibration cfg s =
      { s with g := ⟨s.g.x + s.gyroADC.x, s.g.y, s.g.z⟩,
               var := ⟨devPush s.var.x s.gyroADC.x, s.var.y, s.var.z⟩,
               gyroADC := ⟨0, s.gyroADC.y, s.gyroADC.z⟩,
               gyroZero := ⟨0, s.gyroZero.y, s.gyroZero.z⟩,
               calibratingG := gyroCalculateCalibratingCycles cfg } := by
  have hfst' : (1 : ℕ) ≠ gyroCalculateCalibratingCycles cfg := Ne.symm hfst
  unfold performGyroCalibration isOnFirstGyroCalibrationCycle isOnFinalGyroCalibrationCycle
  simp [hfin, hfst', hthr, hmx]

theorem perform_final_restart_y {σ : Type} (cfg : GyroCfg σ) (s : GyroState σ)
    (hfin : s.calibratingG = 1)
    (hfst : gyroCalculateCalibratingCycles cfg ≠ 1)
    (hthr : cfg.gyroMovementCalibrationThreshold ≠ 0)
    (hmx : ¬ movementExceeds cfg.gyroMovementCalibrationThreshold (devPush s.var.x s.gyroADC.x))
    (hmy : movementExceeds cfg.gyroMovementCalibrationThreshold (devPush s.var.y s.gyroADC.y)) :
    performGyroCalibration cfg s =
      { s with g := ⟨s.g.x + s.gyroADC.x, s.g.y + s.gyroADC.y, s.g.z⟩,
               var := ⟨devPush s.var.x s.gyroADC.x, devPush s.var.y s.gyroADC.y, s.var.z⟩,
               gyroADC := ⟨0, 0, s.gyroADC.z⟩,
               gyroZero := ⟨commitOffset (gyroCalculateCalibratingCycles cfg) (s.g.x + s.gyroADC.x),
                            0, s.gyroZero.z⟩,
               calibratingG := gyroCalculateCalibratingCycles cfg } := by
  have hfst' : (1 : ℕ) ≠ gyroCalculateCalibratingCycles cfg := Ne.symm hfst
  unfold performGyroCalibration isOnFirstGyroCalibrationCycle isOnFinalGyroCalibrationCycle
  simp [hfin, hfst', hthr, hmx, hmy]

theorem perform_final_restart_z {σ : Type} (cfg : GyroCfg σ) (s : GyroState σ)
    (hfin : s.calibratingG = 1)
    (hfst : gyroCalculateCalibratingCycles cfg ≠ 1)
    (hthr : cfg.gyroMovementCalibrationThreshold ≠ 0)
    (hmx : ¬ movementExceeds cfg.gyroMovementCalibrationThreshold (devPush s.var.x s.gyroADC.x))
    (hmy : ¬ movementExceeds cfg.gyroMovementCalibrationThreshold (devPush s.var.y s.gyroADC.y))
    (hmz : movementExceeds cfg.gyroMovementCalibrationThreshold (devPush s.var.z s.gyroADC.z)) :
    performGyroCalibration cfg s =
      { s with g := ⟨s.g.x + s.gyroADC.x, s.g.y + s.gyroADC.y, s.g.z + s.gyroADC.z⟩,
               var := ⟨devPush s.var.x s.gyroADC.x, devPush s.var.y s.gyroADC.y,
                       devPush s.var.z s.gyroADC.z⟩,
               gyroADC := ⟨0, 0, 0⟩,
               gyroZero := ⟨commitOffset (gyroCalculateCalibratingCycles cfg) (s.g.x + s.gyroADC.x),
                            commitOffset (gyroCalculateCalibratingCycles cfg) (s.g.y + s.gyroADC.y),
                            0⟩,
               calibratingG := gyroCalculateCalibratingCycles cfg } := by
  have hfst' : (1 : ℕ) ≠ gyroCalculateCalibratingCycles cfg := Ne.symm hfst
  unfold performGyroCalibration isOnFirstGyroCalibrationCycle isOnFinalGyroCalibrationCycle
  simp [hfin, hfst', hthr, hmx, hmy, hmz]

theorem gyroUpdate_none {σ : Type} (cfg : GyroCfg σ) (s : GyroState σ) :
    gyroUpdate cfg none s = s := rfl

theorem gyroUpdate_some {σ : Type} (cfg : GyroCfg σ) (r : Triple ℤ) (s : GyroState σ) :
    gyroUpdate cfg (some r) s = gyroApplyFilters cfg (gyroUpdatePre cfg r s) := rfl

theorem storeAligned_fields {σ : Type} (cfg : GyroCfg σ) (r : Triple ℤ) (s : GyroState σ) :
    (gyroStoreAligned cfg r s).gyroADC = cfg.align r ∧
    (gyroStoreAligned cfg r s).calibratingG = s.calibratingG ∧
    (gyroStoreAligned cfg r s).g = s.g ∧
    (gyroStoreAligned cfg r s).var = s.var ∧
    (gyroStoreAligned cfg r s).gyroZero = s.gyroZero ∧
    (gyroStoreAligned cfg r s).fstate = s.fstate := by
  unfold gyroStoreAligned
  simp

theorem gyroUpdatePre_complete {σ : Type} (cfg : GyroCfg σ) (r : Triple ℤ) (s : GyroState σ)
    (h : s.calibratingG = 0) :
    gyroUpdatePre cfg r s =
      { s with gyroADC := ⟨(cfg.align r).x - s.gyroZero.x,
                           (cfg.align r).y - s.gyroZero.y,
                           (cfg.align r).z - s.gyroZero.z⟩ } := by
  unfold gyroUpdatePre gyroSubtractZero gyroStoreAligned isGyroCalibrationComplete
  simp [h]

theorem gyroUpdatePre_mid {σ : Type} (cfg : GyroCfg σ) (r : Triple ℤ) (s : GyroState σ)
    (hne : s.calibratingG ≠ 0) (hfin : s.calibratingG ≠ 1)
    (hfst : s.calibratingG ≠ gyroCalculateCalibratingCycles cfg) :
    gyroUpdatePre cfg r s =
      { s with gyroADC := ⟨0, 0, 0⟩, gyroZero := ⟨0, 0, 0⟩,
               g := ⟨s.g.x + (cfg.align r).x, s.g.y + (cfg.align r).y, s.g.z + (cfg.align r).z⟩,
               var := ⟨devPush s.var.x (cfg.align r).x, devPush s.var.y (cfg.align r).y,
                       devPush s.var.z (cfg.align r).z⟩,
               calibratingG := dec16 s.calibratingG } := by
  unfold gyroUpdatePre
  rw [perform_mid cfg _ (by simp [gyroStoreAligned, hfin]) (by simp [gyroStoreAligned, hfst])]
  unfold gyroStoreAligned gyroSubtractZero isGyroCalibrationComplete
  simp [hne]

theorem gyroUpdatePre_firstOfMany {σ : Type} (cfg : GyroCfg σ) (r : Triple ℤ) (s : GyroState σ)
    (hne : s.calibratingG ≠ 0)
    (hfst : s.calibratingG = gyroCalculateCalibratingCycles cfg)
    (hfin : s.calibratingG ≠ 1) :
    gyroUpdatePre cfg r s =
      { s with gyroADC := ⟨0, 0, 0⟩, gyroZero := ⟨0, 0, 0⟩,
               g := ⟨(cfg.align r).x, (cfg.align r).y, (cfg.align r).z⟩,
               var := ⟨devPush devClear (cfg.align r).x, devPush devClear (cfg.align r).y,
                       devPush devClear (cfg.align r).z⟩,
               calibratingG := dec16 s.calibratingG } := by
  unfold gyroUpdatePre
  rw [perform_first cfg _ (by simp [gyroStoreAligned, hfst]) (by simp [gyroStoreAligned, hfin])]
  unfold gyroStoreAligned gyroSubtractZero isGyroCalibrationComplete
  simp [hne]

theorem gyroUpdatePre_final_pass {σ : Type} (cfg : GyroCfg σ) (r : Triple ℤ) (s : GyroState σ)
    (hfin : s.calibratingG = 1)
    (hfst : gyroCalculateCalibratingCycles cfg ≠ 1)
    (hx : ¬(cfg.gyroMovementCalibrationThreshold ≠ 0 ∧
        movementExceeds cfg.gyroMovementCalibrationThreshold (devPush s.var.x (cfg.align r).x)))
    (hy : ¬(cfg.gyroMovementCalibrationThreshold ≠ 0 ∧
        movementExceeds cfg.gyroMovementCalibrationThreshold (devPush s.var.y (cfg.align r).y)))
    (hz : ¬(cfg.gyroMovementCalibrationThreshold ≠ 0 ∧
        movementExceeds cfg.gyroMovementCalibrationThreshold (devPush s.var.z (cfg.align r).z))) :
    gyroUpdatePre cfg r s =
      { s with
          gyroADC := ⟨-(commitOffset (gyroCalculateCalibratingCycles cfg) (s.g.x + (cfg.align r).x)),
                      -(commitOffset (gyroCalculateCalibratingCycles cfg) (s.g.y + (cfg.align r).y)),
                      -(commitOffset (gyroCalculateCalibratingCycles cfg) (s.g.z + (cfg.align r).z))⟩,
          gyroZero := ⟨commitOffset (gyroCalculateCalibratingCycles cfg) (s.g.x + (cfg.align r).x),
                       commitOffset (gyroCalculateCalibratingCycles cfg) (s.g.y + (cfg.align r).y),
                       commitOffset (gyroCalculateCalibratingCycles cfg) (s.g.z + (cfg.align r).z)⟩,
          g := ⟨s.g.x + (cfg.align r).x, s.g.y + (cfg.align r).y, s.g.z + (cfg.align r).z⟩,
          var := ⟨devPush s.var.x (cfg.align r).x, devPush s.var.y (cfg.align r).y,
                  devPush s.var.z (cfg.align r).z⟩,
          calibratingG := 0 } := by
  unfold gyroUpdatePre
  rw [perform_final_pass cfg _ (by simp [gyroStoreAligned, hfin]) hfst
        (by simpa [gyroStoreAligned] using hx)
        (by simpa [gyroStoreAligned] using hy)
        (by simpa [gyroStoreAligned] using hz)]
  unfold gyroStoreAligned gyroSubtractZero isGyroCalibrationComplete
  simp [hfin]

theorem gyroUpdatePre_final_restart_y {σ : Type} (cfg : GyroCfg σ) (r : Triple ℤ) (s : GyroState σ)
    (hfin : s.calibratingG = 1)
    (hfst : gyroCalculateCalibratingCycles cfg ≠ 1)
    (hthr : cfg.gyroMovementCalibrationThreshold ≠ 0)
    (hmx : ¬ movementExceeds cfg.gyroMovementCalibrationThreshold (devPush s.var.x (cfg.align r).x))
    (hmy : movementExceeds cfg.gyroMovementCalibrationThreshold (devPush s.var.y (cfg.align r).y)) :
    gyroUpdatePre cfg r s =
      { s with
          gyroADC := ⟨-(commitOffset (gyroCalculateCalibratingCycles cfg) (s.g.x + (cfg.align r).x)),
                      0, (cfg.align r).z - s.gyroZero.z⟩,
          gyroZero := ⟨commitOffset (gyroCalculateCalibratingCycles cfg) (s.g.x + (cfg.align r).x),
                       0, s.gyroZero.z⟩,
          g := ⟨s.g.x + (cfg.align r).x, s.g.y + (cfg.align r).y, s.g.z⟩,
          var := ⟨devPush s.var.x (cfg.align r).x, devPush s.var.y (cfg.align r).y, s.var.z⟩,
          calibratingG := gyroCalculateCalibratingCycles cfg } := by
  unfold gyroUpdatePre
  rw [perform_final_restart_y cfg _ (by simp [gyroStoreAligned, hfin]) hfst hthr
        (by simpa [gyroStoreAligned] using hmx)
        (by simpa [gyroStoreAligned] using hmy)]
  unfold gyroStoreAligned gyroSubtractZero isGyroCalibrationComplete
  simp [hfin]

theorem midWindow_filters {σ : Type} (cfg : GyroCfg σ) (s : GyroState σ)
    (done : List (Triple ℤ)) :
    MidWindow cfg (gyroApplyFilters cfg s) done ↔ MidWindow cfg s done := by
  obtain ⟨h1, h2, h3, h4⟩ := filters_preserve cfg s
  unfold MidWindow
  rw [h1, h2, h3, h4]

theorem window_entry {σ : Type} (cfg : GyroCfg σ) (s : GyroState σ) (r : Triple ℤ)
    (hfst : s.calibratingG = gyroCalculateCalibratingCycles cfg)
    (htc2 : 2 ≤ gyroCalculateCalibratingCycles cfg) :
    MidWindow cfg (gyroUpdate cfg (some r) s) [cfg.align r] := by
  rw [gyroUpdate_some, midWindow_filters]
  rw [gyroUpdatePre_firstOfMany cfg r s (by omega) hfst (by omega)]
  unfold MidWindow welfordOf
  have hlt := gyroCalc_lt cfg
  refine ⟨?_, by simp, by simp, by simp, by simp, by simp, by simp, by simp⟩
  simp only [hfst]
  rw [dec16_eq _ (by omega) (by omega)]
  simp

theorem window_step {σ : Type} (cfg : GyroCfg σ) (s : GyroState σ)
    (done : List (Triple ℤ)) (r : Triple ℤ)
    (hmw : MidWindow cfg s done) (h1 : 1 ≤ done.length)
    (h2 : done.length + 2 ≤ gyroCalculateCalibratingCycles cfg) :
    MidWindow cfg (gyroUpdate cfg (some r) s) (done ++ [cfg.align r]) := by
  obtain ⟨hc, hgx, hgy, hgz, hvx, hvy, hvz, hz0⟩ := hmw
  have hlt := gyroCalc_lt cfg
  rw [gyroUpdate_some, midWindow_filters]
  rw [gyroUpdatePre_mid cfg r s (by omega) (by omega) (by omega)]
  unfold MidWindow welfordOf
  refine ⟨?_, ?_, ?_, ?_, ?_, ?_, ?_, by simp⟩
  · simp only [hc]
    rw [dec16_eq _ (by omega) (by omega)]
    simp
    omega
  · simp [hgx, List.sum_append]
  · simp [hgy, List.sum_append]
  · simp [hgz, List.sum_append]
  · simp [hvx, welfordOf, List.foldl_append]
  · simp [hvy, welfordOf, List.foldl_append]
  · simp [hvz, welfordOf, List.foldl_append]

theorem window_run_aux {σ : Type} (cfg : GyroCfg σ) :
    ∀ (rs : List (Triple ℤ)) (s : GyroState σ) (done : List (Triple ℤ)),
      MidWindow cfg s done → 1 ≤ done.length →
      done.length + rs.length + 1 ≤ gyroCalculateCalibratingCycles cfg →
      MidWindow cfg (runTicks cfg rs s) (done ++ rs.map cfg.align)
  | [], s, done, hmw, _, _ => by simpa [runTicks] using hmw
  | r :: rs, s, done, hmw, hd1, hlen => by
      have hstep := window_step cfg s done r hmw hd1 (by simp at hlen; omega)
      have haux := window_run_aux cfg rs (gyroUpdate cfg (some r) s) (done ++ [cfg.align r])
        hstep (by simp) (by simp at hlen ⊢; omega)
      simpa [runTicks, List.append_assoc] using haux

theorem window_run {σ : Type} (cfg : GyroCfg σ) (s : GyroState σ) (rs : List (Triple ℤ))
    (hfst : s.calibratingG = gyroCalculateCalibratingCycles cfg)
    (h3 : 1 ≤ rs.length)
    (h4 : rs.length + 1 ≤ gyroCalculateCalibratingCycles cfg) :
    MidWindow cfg (runTicks cfg rs s) (rs.map cfg.align) := by
  match rs, h3 with
  | r :: rs', _ =>
    have hentry := window_entry cfg s r hfst (by simp at h4; omega)
    have haux := window_run_aux cfg rs' (gyroUpdate cfg (some r) s) [cfg.align r]
      hentry (by simp) (by simp at h4 ⊢; omega)
    simpa [runTicks] using haux

theorem runTicks_append {σ : Type} (cfg : GyroCfg σ) (l1 l2 : List (Triple ℤ)) :
    ∀ s : GyroState σ, runTicks cfg (l1 ++ l2) s = runTicks cfg l2 (runTicks cfg l1 s) := by
  induction l1 with
  | nil => intro s; rfl
  | cons r rs ih => intro s; simp [runTicks, ih]

theorem devPush_const (n : ℕ) (S : ℚ) (x : ℤ) (h : 1 ≤ n) :
    devPush ⟨n, (x : ℚ), S⟩ x = ⟨n + 1, (x : ℚ), S⟩ := by
  unfold devPush
  simp [Nat.succ_ne_succ]
  intro hn
  omega

theorem foldl_devPush_const (k : ℕ) (x : ℤ) :
    ∀ (n : ℕ) (S : ℚ), 1 ≤ n →
      List.foldl devPush ⟨n, (x : ℚ), S⟩ (List.replicate k x) = ⟨n + k, (x : ℚ), S⟩ := by
  induction k with
  | zero => intro n S _; simp
  | succ k ih =>
      intro n S hn
      rw [List.replicate_succ, List.foldl_cons, devPush_const n S x hn, ih (n + 1) S (by omega)]
      congr 1
      omega

theorem welfordOf_replicate (k : ℕ) (x : ℤ) (h : 1 ≤ k) :
    welfordOf (List.replicate k x) = ⟨k, (x : ℚ), 0⟩ := by
  obtain ⟨k', hk⟩ : ∃ k', k = k' + 1 := ⟨k - 1, by omega⟩
  subst hk
  unfold welfordOf
  rw [List.replicate_succ, List.foldl_cons]
  have h1 : devPush devClear x = ⟨1, (x : ℚ), 0⟩ := by
    unfold devPush devClear
    simp
  rw [h1, foldl_devPush_const k' x 1 0 (by omega)]
  congr 1
  omega

theorem perform_calibratingG_cases {σ : Type} (cfg : GyroCfg σ) (s : GyroState σ) :
    (performGyroCalibration cfg s).calibratingG = dec16 s.calibratingG ∨
    ((performGyroCalibration cfg s).calibratingG = gyroCalculateCalibratingCycles cfg ∧
      s.calibratingG = 1) := by
  by_cases hfin : s.calibratingG = 1
  · unfold performGyroCalibration isOnFinalGyroCalibrationCycle isOnFirstGyroCalibrationCycle
    dsimp only
    simp only [hfin]
    split_ifs <;> first | (left; rfl) | (right; exact ⟨rfl, trivial⟩)
  · left
    unfold performGyroCalibration isOnFinalGyroCalibrationCycle
    simp [hfin]

theorem gyroUpdate_calibratingG_cases {σ : Type} (cfg : GyroCfg σ)
    (op : Option (Triple ℤ)) (s : GyroState σ) (h : s.calibratingG < 65536) :
    (gyroUpdate cfg op s).calibratingG = s.calibratingG ∨
    (1 ≤ s.calibratingG ∧ (gyroUpdate cfg op s).calibratingG = s.calibratingG - 1) ∨
    (s.calibratingG = 1 ∧
      (gyroUpdate cfg op s).calibratingG = gyroCalculateCalibratingCycles cfg) := by
  match op with
  | none => left; rfl
  | some r =>
    rw [gyroUpdate_some]
    rw [(filters_preserve cfg (gyroUpdatePre cfg r s)).2.1]
    unfold gyroUpdatePre
    have hsub : ∀ t : GyroState σ, (gyroSubtractZero t).calibratingG = t.calibratingG := by
      intro t; rfl
    rw [hsub]
    split_ifs with hc
    · left
      simp [gyroStoreAligned]
    · have hne : s.calibratingG ≠ 0 := by
        simpa [gyroStoreAligned, isGyroCalibrationComplete] using hc
      rcases perform_calibratingG_cases cfg (gyroStoreAligned cfg r s) with hd | ⟨hd, h1⟩
      · right; left
        constructor
        · omega
        · rw [hd]
          have : (gyroStoreAligned cfg r s).calibratingG = s.calibratingG := rfl
          rw [this, dec16_eq _ (by omega) h]
      · right; right
        have : (gyroStoreAligned cfg r s).calibratingG = s.calibratingG := rfl
        rw [this] at h1
        exact ⟨h1, hd⟩

theorem gyroUpdate_calibratingG_lt {σ : Type} (cfg : GyroCfg σ)
    (op : Option (Triple ℤ)) (s : GyroState σ) (h : s.calibratingG < 65536) :
    (gyroUpdate cfg op s).calibratingG < 65536 := by
  rcases gyroUpdate_calibratingG_cases cfg op s h with h1 | ⟨_, h1⟩ | ⟨_, h1⟩ <;> rw [h1]
  · exact h
  · omega
  · exact gyroCalc_lt cfg

theorem runTicksO_calibratingG_ge {σ : Type} (cfg : GyroCfg σ) :
    ∀ (ops : List (Option (Triple ℤ))) (s : GyroState σ), s.calibratingG < 65536 →
      s.calibratingG ≤ (runTicksO cfg ops s).calibratingG + ops.length := by
  intro ops
  induction ops with
  | nil => intro s _; simp [runTicksO]
  | cons op ops ih =>
      intro s hlt
      have hstep := gyroUpdate_calibratingG_cases cfg op s hlt
      have hlt' := gyroUpdate_calibratingG_lt cfg op s hlt
      have ihh := ih (gyroUpdate cfg op s) hlt'
      simp only [runTicksO, List.length_cons]
      rcases hstep with h1 | ⟨h2, h1⟩ | ⟨h2, h1⟩ <;> omega

theorem gyroApplyFilters_bypass {σ : Type} (cfg : GyroCfg σ) (s : GyroState σ)
    (h : cfg.gyroSoftLpfHz = 0) :
    gyroApplyFilters cfg s =
      { s with gyroADCf := ⟨(s.gyroADC.x : ℚ), (s.gyroADC.y : ℚ), (s.gyroADC.z : ℚ)⟩ } := by
  unfold gyroApplyFilters
  simp [h]

theorem tc_cfgC1 : gyroCalculateCalibratingCycles cfgC1 = 1000 := rfl

theorem c1_mid_999 : MidWindow cfgC1 (c1run 999) (List.replicate 999 rawC1) := by
  have halign : cfgC1.align = id := rfl
  have h := window_run cfgC1 (gyroSetCalibrationCycles cfgC1 (initState Unit ()))
    (List.replicate 999 rawC1) rfl
    (by rw [List.length_replicate]; omega)
    (by rw [List.length_replicate, tc_cfgC1])
  rw [halign, List.map_id] at h
  exact h

theorem c1_run_facts :
    (c1run 1000).gyroZero = ⟨100, -49, 0⟩ ∧
    (c1run 1000).calibratingG = 0 ∧
    (c1run 1000).gyroADC = ⟨-100, 49, 0⟩ ∧
    (c1run 1000).gyroADCf = ⟨-100, 49, 0⟩ ∧
    (c1run 999).calibratingG = 1 ∧
    (c1run 1000).g.y = -50000 := by
  obtain ⟨hc, hgx, hgy, hgz, hvx, hvy, hvz, hz0⟩ := c1_mid_999
  have hc1 : (c1run 999).calibratingG = 1 := by
    rw [hc, tc_cfgC1, List.length_replicate]
  have hsplit : c1run 1000 = gyroUpdate cfgC1 (some rawC1) (c1run 999) := by
    unfold c1run
    rw [List.replicate_succ' (n := 999), runTicks_append]
    rfl
  have hthr : cfgC1.gyroMovementCalibrationThreshold = 0 := rfl
  have hrx : rawC1.x = (100 : ℤ) := rfl
  have hry : rawC1.y = (-50 : ℤ) := rfl
  have hrz : rawC1.z = (0 : ℤ) := rfl
  have hgx' : (c1run 999).g.x = 99900 := by
    rw [hgx, List.map_replicate, hrx, List.sum_replicate, nsmul_eq_mul]
    norm_num
  have hgy' : (c1run 999).g.y = -49950 := by
    rw [hgy, List.map_replicate, hry, List.sum_replicate, nsmul_eq_mul]
    norm_num
  have hgz' : (c1run 999).g.z = 0 := by
    rw [hgz, List.map_replicate, hrz, List.sum_replicate, nsmul_eq_mul]
    norm_num
  have hpre := gyroUpdatePre_final_pass cfgC1 rawC1 (c1run 999) hc1
    (by rw [tc_cfgC1]; omega)
    (fun h => h.1 hthr)
    (fun h => h.1 hthr)
    (fun h => h.1 hthr)
  have halign : cfgC1.align = id := rfl
  rw [halign] at hpre
  simp only [id_eq, tc_cfgC1, hgx', hgy', hgz', hrx, hry, hrz] at hpre
  have hcx : commitOffset 1000 (99900 + 100) = 100 := by decide
  have hcy : commitOffset 1000 (-49950 + -50) = -49 := by decide
  have hcz : commitOffset 1000 ((0 : ℤ) + 0) = 0 := by decide
  rw [hcx, hcy, hcz] at hpre
  rw [hsplit, gyroUpdate_some, hpre, gyroApplyFilters_bypass _ _ (by rfl)]
  refine ⟨rfl, rfl, rfl, ?_, hc1, by norm_num⟩
  show (⟨((-100 : ℤ) : ℚ), ((49 : ℤ) : ℚ), ((-(0 : ℤ) : ℤ) : ℚ)⟩ : Triple ℚ) = ⟨-100, 49, 0⟩
  norm_num

theorem tc_cfgC3 : gyroCalculateCalibratingCycles cfgC3 = 1000 := rfl

theorem c3_mid_999 : MidWindow cfgC3 c3mid (List.replicate 999 ⟨100, 0, 0⟩) := by
  have halign : cfgC3.align = id := rfl
  have h := window_run cfgC3 (gyroSetCalibrationCycles cfgC3 (initState Unit ()))
    (List.replicate 999 ⟨100, 0, 0⟩) rfl
    (by rw [List.length_replicate]; omega)
    (by rw [List.length_replicate, tc_cfgC3])
  rw [halign, List.map_id] at h
  exact h

theorem c3_run_facts :
    c3run.gyroZero = ⟨100, 0, 0⟩ ∧
    c3run.calibratingG = 1000 ∧
    c3run.gyroADC = ⟨-100, 0, 0⟩ ∧
    c3mid.calibratingG = 1 ∧
    c3mid.gyroZero = ⟨0, 0, 0⟩ ∧
    c3mid.var.y = ⟨999, 0, 0⟩ := by
  obtain ⟨hc, hgx, hgy, hgz, hvx, hvy, hvz, hz0⟩ := c3_mid_999
  have hc1 : c3mid.calibratingG = 1 := by
    rw [hc, tc_cfgC3, List.length_replicate]
  have hsplit : c3run = gyroUpdate cfgC3 (some ⟨100, 200, 0⟩) c3mid := by
    unfold c3run c3ins c3mid
    rw [runTicks_append]
    rfl
  have hvx' : c3mid.var.x = ⟨999, 100, 0⟩ := by
    rw [hvx, List.map_replicate]
    show welfordOf (List.replicate 999 (100 : ℤ)) = ⟨999, 100, 0⟩
    rw [welfordOf_replicate 999 100 (by omega)]
    norm_num
  have hvy' : c3mid.var.y = ⟨999, 0, 0⟩ := by
    rw [hvy, List.map_replicate]
    show welfordOf (List.replicate 999 (0 : ℤ)) = ⟨999, 0, 0⟩
    rw [welfordOf_replicate 999 0 (by omega)]
    norm_num
  have hgx' : c3mid.g.x = 99900 := by
    rw [hgx, List.map_replicate]
    show (List.replicate 999 (100 : ℤ)).sum = 99900
    rw [List.sum_replicate, nsmul_eq_mul]
    norm_num
  have halign : cfgC3.align = id := rfl
  have hthr : cfgC3.gyroMovementCalibrationThreshold = 6 := rfl
  have hmx : ¬ movementExceeds cfgC3.gyroMovementCalibrationThreshold
      (devPush c3mid.var.x (cfgC3.align ⟨100, 200, 0⟩).x) := by
    rw [halign, hthr, hvx']
    show ¬ movementExceeds 6 (devPush ⟨999, 100, 0⟩ 100)
    unfold movementExceeds devPush devVariance
    norm_num
  have hmy : movementExceeds cfgC3.gyroMovementCalibrationThreshold
      (devPush c3mid.var.y (cfgC3.align ⟨100, 200, 0⟩).y) := by
    rw [halign, hthr, hvy']
    show movementExceeds 6 (devPush ⟨999, 0, 0⟩ 200)
    unfold movementExceeds devPush devVariance
    norm_num
  have hpre := gyroUpdatePre_final_restart_y cfgC3 ⟨100, 200, 0⟩ c3mid hc1
    (by rw [tc_cfgC3]; omega)
    (by rw [hthr]; omega)
    hmx hmy
  rw [halign] at hpre
  have hzz : c3mid.gyroZero.z = 0 := by rw [hz0]
  simp only [id_eq, tc_cfgC3, hgx', hzz] at hpre
  have hcx : commitOffset 1000 (99900 + 100) = 100 := by decide
  rw [hcx] at hpre
  rw [hsplit, gyroUpdate_some, hpre, gyroApplyFilters_bypass _ _ (by rfl)]
  refine ⟨rfl, rfl, ?_, hc1, hz0, hvy'⟩
  norm_num

theorem gyroUpdatePre_final_restart_x {σ : Type} (cfg : GyroCfg σ) (r : Triple ℤ) (s : GyroState σ)
    (hfin : s.calibratingG = 1)
    (hfst : gyroCalculateCalibratingCycles cfg ≠ 1)
    (hthr : cfg.gyroMovementCalibrationThreshold ≠ 0)
    (hmx : movementExceeds cfg.gyroMovementCalibrationThreshold (devPush s.var.x (cfg.align r).x)) :
    gyroUpdatePre cfg r s =
      { s with
          gyroADC := ⟨0, (cfg.align r).y - s.gyroZero.y, (cfg.align r).z - s.gyroZero.z⟩,
          gyroZero := ⟨0, s.gyroZero.y, s.gyroZero.z⟩,
          g := ⟨s.g.x + (cfg.align r).x, s.g.y, s.g.z⟩,
          var := ⟨devPush s.var.x (cfg.align r).x, s.var.y, s.var.z⟩,
          calibratingG := gyroCalculateCalibratingCycles cfg } := by
  unfold gyroUpdatePre
  rw [perform_final_restart_x cfg _ (by simp [gyroStoreAligned, hfin]) hfst hthr
        (by simpa [gyroStoreAligned] using hmx)]
  unfold gyroStoreAligned gyroSubtractZero isGyroCalibrationComplete
  simp [hfin]

theorem gyroUpdatePre_final_restart_z {σ : Type} (cfg : GyroCfg σ) (r : Triple ℤ) (s : GyroState σ)
    (hfin : s.calibratingG = 1)
    (hfst : gyroCalculateCalibratingCycles cfg ≠ 1)
    (hthr : cfg.gyroMovementCalibrationThreshold ≠ 0)
    (hmx : ¬ movementExceeds cfg.gyroMovementCalibrationThreshold (devPush s.var.x (cfg.align r).x))
    (hmy : ¬ movementExceeds cfg.gyroMovementCalibrationThreshold (devPush s.var.y (cfg.align r).y))
    (hmz : movementExceeds cfg.gyroMovementCalibrationThreshold (devPush s.var.z (cfg.align r).z)) :
    gyroUpdatePre cfg r s =
      { s with
          gyroADC := ⟨-(commitOffset (gyroCalculateCalibratingCycles cfg) (s.g.x + (cfg.align r).x)),
                      -(commitOffset (gyroCalculateCalibratingCycles cfg) (s.g.y + (cfg.align r).y)),
                      0⟩,
          gyroZero := ⟨commitOffset (gyroCalculateCalibratingCycles cfg) (s.g.x + (cfg.align r).x),
                       commitOffset (gyroCalculateCalibratingCycles cfg) (s.g.y + (cfg.align r).y),
                       0⟩,
          g := ⟨s.g.x + (cfg.align r).x, s.g.y + (cfg.align r).y, s.g.z + (cfg.align r).z⟩,
          var := ⟨devPush s.var.x (cfg.align r).x, devPush s.var.y (cfg.align r).y,
                  devPush s.var.z (cfg.align r).z⟩,
          calibratingG := gyroCalculateCalibratingCycles cfg } := by
  unfold gyroUpdatePre
  rw [perform_final_restart_z cfg _ (by simp [gyroStoreAligned, hfin]) hfst hthr
        (by simpa [gyroStoreAligned] using hmx)
        (by simpa [gyroStoreAligned] using hmy)
        (by simpa [gyroStoreAligned] using hmz)]
  unfold gyroStoreAligned gyroSubtractZero isGyroCalibrationComplete
  simp [hfin]

theorem gyroUpdate_restart_any {σ : Type} (cfg : GyroCfg σ) (r : Triple ℤ) (s : GyroState σ)
    (hfin : s.calibratingG = 1)
    (hfst : gyroCalculateCalibratingCycles cfg ≠ 1)
    (hthr : cfg.gyroMovementCalibrationThreshold ≠ 0)
    (h : movementExceeds cfg.gyroMovementCalibrationThreshold (devPush s.var.x (cfg.align r).x) ∨
         movementExceeds cfg.gyroMovementCalibrationThreshold (devPush s.var.y (cfg.align r).y) ∨
         movementExceeds cfg.gyroMovementCalibrationThreshold (devPush s.var.z (cfg.align r).z)) :
    (gyroUpdate cfg (some r) s).calibratingG = gyroCalculateCalibratingCycles cfg := by
  rw [gyroUpdate_some, (filters_preserve cfg (gyroUpdatePre cfg r s)).2.1]
  by_cases hmx : movementExceeds cfg.gyroMovementCalibrationThreshold (devPush s.var.x (cfg.align r).x)
  · rw [gyroUpdatePre_final_restart_x cfg r s hfin hfst hthr hmx]
  · by_cases hmy : movementExceeds cfg.gyroMovementCalibrationThreshold (devPush s.var.y (cfg.align r).y)
    · rw [gyroUpdatePre_final_restart_y cfg r s hfin hfst hthr hmx hmy]
    · have hmz : movementExceeds cfg.gyroMovementCalibrationThreshold (devPush s.var.z (cfg.align r).z) := by
        tauto
      rw [gyroUpdatePre_final_restart_z cfg r s hfin hfst hthr hmx hmy hmz]

theorem calib_window_commits {σ : Type} (cfg : GyroCfg σ) (s : GyroState σ)
    (ins : List (Triple ℤ))
    (hthr : cfg.gyroMovementCalibrationThreshold = 0)
    (hlen : ins.length = gyroCalculateCalibratingCycles cfg)
    (htc : 2 ≤ gyroCalculateCalibratingCycles cfg) :
    (runTicks cfg ins (gyroSetCalibrationCycles cfg s)).gyroZero = calibCommitSpec cfg ins ∧
    (runTicks cfg ins (gyroSetCalibrationCycles cfg s)).calibratingG = 0 := by
  have hne : ins ≠ [] := by
    intro h0
    rw [h0] at hlen
    simp at hlen
    omega
  obtain ⟨l, last, hdecomp⟩ : ∃ l last, ins = l ++ [last] :=
    ⟨ins.dropLast, ins.getLast hne, (List.dropLast_append_getLast hne).symm⟩
  subst hdecomp
  have hlen' : l.length + 1 = gyroCalculateCalibratingCycles cfg := by
    simpa using hlen
  have hl1 : 1 ≤ l.length := by omega
  have hmw := window_run cfg (gyroSetCalibrationCycles cfg s) l rfl hl1 (by omega)
  obtain ⟨hc, hgx, hgy, hgz, hvx, hvy, hvz, hz0⟩ := hmw
  have hc1 : (runTicks cfg l (gyroSetCalibrationCycles cfg s)).calibratingG = 1 := by
    rw [hc, List.length_map]
    omega
  rw [runTicks_append]
  have hstep : runTicks cfg [last] (runTicks cfg l (gyroSetCalibrationCycles cfg s)) =
      gyroUpdate cfg (some last) (runTicks cfg l (gyroSetCalibrationCycles cfg s)) := rfl
  rw [hstep, gyroUpdate_some]
  have hpre := gyroUpdatePre_final_pass cfg last (runTicks cfg l (gyroSetCalibrationCycles cfg s))
    hc1 (by omega)
    (fun hct => hct.1 hthr) (fun hct => hct.1 hthr) (fun hct => hct.1 hthr)
  rw [hpre]
  obtain ⟨hfz, hfc, _, _⟩ := filters_preserve cfg _
  rw [hfz, hfc]
  refine ⟨?_, rfl⟩
  unfold calibCommitSpec
  dsimp only
  rw [hgx, hgy, hgz]
  simp [List.map_append, List.sum_append, List.map_map, Triple.mk.injEq, Function.comp_def]

/-! ### Claim theorems -/

/-- C1, counterexample.  In the spec's concrete scenario (loopPeriod 1000,
constant aligned raw triple (100, -50, 0), movementThreshold 0), the offset
committed after 1000 ticks is NOT (100, -50, 0): the Y axis commits -49, not
-50, because the biased division truncates toward zero for negative sums. -/
theorem c1_counterexample : (c1run 1000).gyroZero ≠ ⟨100, -50, 0⟩ := by
  rw [c1_run_facts.1]
  simp [Triple.mk.injEq]

/-- C1, amended.  In the spec's concrete scenario the committed zero-offset
after exactly 1000 ticks is (100, -49, 0) — the Y axis is one off the rounded
mean because C integer division truncates toward zero — and
`isGyroCalibrationComplete()` is true exactly at tick 1000 and false at tick
999. -/
theorem c1_amended_thm :
    (c1run 1000).gyroZero = ⟨100, -49, 0⟩ ∧
    isGyroCalibrationComplete (c1run 1000) = true ∧
    isGyroCalibrationComplete (c1run 999) = false := by
  obtain ⟨h1, h2, _, _, h5, _⟩ := c1_run_facts
  refine ⟨h1, ?_, ?_⟩
  · simp [isGyroCalibrationComplete, h2]
  · simp [isGyroCalibrationComplete, h5]

/-- C2, counterexample.  On the successful final cycle of the C1 scenario the
Y-axis accumulated sum is -50000 and `round_half_up(-50000 / 1000) = -50`,
but the code commits -49: adding half the divisor before a
truncating-toward-zero division is not round-half-up for negative sums. -/
theorem c2_counterexample :
    (c1run 1000).g.y = -50000 ∧
    roundHalfUpDiv (-50000) 1000 = -50 ∧
    (c1run 1000).gyroZero.y = -49 ∧
    (c1run 1000).gyroZero.y ≠
      roundHalfUpDiv ((c1run 1000).g.y) (gyroCalculateCalibratingCycles cfgC1) := by
  obtain ⟨h1, _, _, _, _, h6⟩ := c1_run_facts
  have hz : (c1run 1000).gyroZero.y = -49 := by rw [h1]
  have hr : roundHalfUpDiv (-50000) 1000 = -50 := by
    unfold roundHalfUpDiv
    norm_num
  refine ⟨h6, hr, hz, ?_⟩
  rw [hz, h6, tc_cfgC1, hr]
  omega

/-- C2, amended.  On the successful final calibration cycle (countdown 1,
movement check disabled) every axis commits
`trunc_div(sum + totalCycles/2, totalCycles)` — C truncating-toward-zero
division of the half-divisor-biased sum — and this equals
`round_half_up(sum / totalCycles)` exactly when the biased sum
`sum + totalCycles/2` is nonnegative; for more negative sums the committed
value can exceed the rounded mean by one. -/
theorem c2_amended_thm {σ : Type} (cfg : GyroCfg σ) (r : Triple ℤ) (s : GyroState σ)
    (hfin : s.calibratingG = 1)
    (hthr : cfg.gyroMovementCalibrationThreshold = 0) :
    (gyroUpdatePre cfg r s).gyroZero =
      ⟨commitOffset (gyroCalculateCalibratingCycles cfg) (s.g.x + (cfg.align r).x),
       commitOffset (gyroCalculateCalibratingCycles cfg) (s.g.y + (cfg.align r).y),
       commitOffset (gyroCalculateCalibratingCycles cfg) (s.g.z + (cfg.align r).z)⟩ ∧
    (∀ gsum : ℤ, 0 < gyroCalculateCalibratingCycles cfg →
      0 ≤ gsum + ((gyroCalculateCalibratingCycles cfg / 2 : ℕ) : ℤ) →
      commitOffset (gyroCalculateCalibratingCycles cfg) gsum =
        roundHalfUpDiv gsum (gyroCalculateCalibratingCycles cfg)) := by
  have hfst : gyroCalculateCalibratingCycles cfg ≠ 1 := by
    have := gyroCalc_even cfg
    omega
  constructor
  · rw [gyroUpdatePre_final_pass cfg r s hfin hfst
      (fun hct => hct.1 hthr) (fun hct => hct.1 hthr) (fun hct => hct.1 hthr)]
  · intro gsum h0 hnn
    exact commitOffset_eq_roundHalfUp _ _ h0 (gyroCalc_even cfg) hnn

/-- C2 amended, witness: a concrete final-cycle tick committing
round-half-up means on every axis (nonnegative biased sums). -/
theorem c2_amended_witness :
    (gyroUpdatePre cfgC1 ⟨100, -50, 0⟩
        { initState Unit () with calibratingG := 1, g := ⟨900, -450, 0⟩ }).gyroZero =
      ⟨commitOffset 1000 (900 + 100), commitOffset 1000 (-450 + -50), commitOffset 1000 (0 + 0)⟩ ∧
    commitOffset 1000 (-450 + -50) = roundHalfUpDiv (-500) 1000 := by
  have h := c2_amended_thm cfgC1 ⟨100, -50, 0⟩
    { initState Unit () with calibratingG := 1, g := ⟨900, -450, 0⟩ } rfl rfl
  constructor
  · exact h.1
  · exact h.2 (-500) (by rw [tc_cfgC1]; omega) (by rw [tc_cfgC1]; norm_num)

/-- C3, counterexample.  A reachable partially-committed state: feeding a
window that is steady on X but disturbed on Y during the final cycle, the
X-axis offset (100, the committed mean of its samples) is written while the
restart triggered by Y leaves the other axes at 0 and calibration active —
some axes hold a newly committed offset while others do not. -/
theorem c3_counterexample :
    c3run.gyroZero.x = 100 ∧ c3run.gyroZero.y = 0 ∧ c3run.gyroZero.z = 0 ∧
    isGyroCalibrationComplete c3run = false := by
  obtain ⟨h1, h2, _, _, _, _⟩ := c3_run_facts
  refine ⟨by rw [h1], by rw [h1], by rw [h1], ?_⟩
  simp [isGyroCalibrationComplete, h2]

/-- C3, amended.  The committed zero-offset receives commit values only on a
final-cycle tick (countdown 1): on any other tick it is left unchanged when
calibration is complete and forced to all zeros when calibration is active.
(On a final-cycle tick the commit is per-axis, so a movement restart after an
earlier axis passed leaves a partially committed offset, as the
counterexample shows.) -/
theorem c3_amended_thm {σ : Type} (cfg : GyroCfg σ) (r : Triple ℤ) (s : GyroState σ)
    (hfin : s.calibratingG ≠ 1) :
    (gyroUpdate cfg (some r) s).gyroZero =
      if s.calibratingG = 0 then s.gyroZero else ⟨0, 0, 0⟩ := by
  rw [gyroUpdate_some, (filters_preserve cfg (gyroUpdatePre cfg r s)).1]
  by_cases h0 : s.calibratingG = 0
  · rw [gyroUpdatePre_complete cfg r s h0, if_pos h0]
  · by_cases hfst : s.calibratingG = gyroCalculateCalibratingCycles cfg
    · rw [gyroUpdatePre_firstOfMany cfg r s h0 hfst hfin, if_neg h0]
    · rw [gyroUpdatePre_mid cfg r s h0 hfin hfst, if_neg h0]

/-- C3 amended, witness: a mid-calibration tick (countdown 5) zeroes the
offsets. -/
theorem c3_amended_witness :
    (gyroUpdate cfgC1 (some ⟨1, 2, 3⟩) c4wState).gyroZero =
      if c4wState.calibratingG = 0 then c4wState.gyroZero else ⟨0, 0, 0⟩ :=
  c3_amended_thm cfgC1 ⟨1, 2, 3⟩ c4wState (by decide)

/-- C4, counterexample.  On the final (still-active) calibration tick of the
C1 scenario the committed offset is subtracted from the zeroed sample, so the
published integer and float outputs are -100 on the X axis and the zero
offset used is 100 — downstream consumers do observe nonzero data on a
calibration tick. -/
theorem c4_counterexample :
    isGyroCalibrationComplete (c1run 999) = false ∧
    (c1run 1000).gyroADC.x = -100 ∧
    (c1run 1000).gyroADCf.x = -100 ∧
    (c1run 1000).gyroZero.x = 100 := by
  obtain ⟨h1, _, h3, h4, h5, _⟩ := c1_run_facts
  refine ⟨?_, by rw [h3], by rw [h4], by rw [h1]⟩
  simp [isGyroCalibrationComplete, h5]

/-- C4, amended.  On every calibration tick that is not the final cycle
(countdown at least 2 at the start), the integer triple fed to the filter
stage and the zero-offset are forced to zero for every axis; only on the
final cycle does the newly committed offset reach the published values. -/
theorem c4_amended_thm {σ : Type} (cfg : GyroCfg σ) (r : Triple ℤ) (s : GyroState σ)
    (h2 : 2 ≤ s.calibratingG) :
    (gyroUpdatePre cfg r s).gyroADC = ⟨0, 0, 0⟩ ∧
    (gyroUpdatePre cfg r s).gyroZero = ⟨0, 0, 0⟩ ∧
    (gyroUpdate cfg (some r) s).gyroZero = ⟨0, 0, 0⟩ := by
  have h0 : s.calibratingG ≠ 0 := by omega
  have hfin : s.calibratingG ≠ 1 := by omega
  have hzero : (gyroUpdatePre cfg r s).gyroADC = ⟨0, 0, 0⟩ ∧
      (gyroUpdatePre cfg r s).gyroZero = ⟨0, 0, 0⟩ := by
    by_cases hfst : s.calibratingG = gyroCalculateCalibratingCycles cfg
    · rw [gyroUpdatePre_firstOfMany cfg r s h0 hfst hfin]
      exact ⟨by norm_num, rfl⟩
    · rw [gyroUpdatePre_mid cfg r s h0 hfin hfst]
      exact ⟨by norm_num, rfl⟩
  refine ⟨hzero.1, hzero.2, ?_⟩
  rw [gyroUpdate_some, (filters_preserve cfg (gyroUpdatePre cfg r s)).1, hzero.2]

/-- C4 amended, witness: a concrete non-final calibration tick. -/
theorem c4_amended_witness :
    (gyroUpdatePre cfgC1 ⟨21, -22, 23⟩ c4wState).gyroADC = ⟨0, 0, 0⟩ ∧
    (gyroUpdatePre cfgC1 ⟨21, -22, 23⟩ c4wState).gyroZero = ⟨0, 0, 0⟩ ∧
    (gyroUpdate cfgC1 (some ⟨21, -22, 23⟩) c4wState).gyroZero = ⟨0, 0, 0⟩ :=
  c4_amended_thm cfgC1 ⟨21, -22, 23⟩ c4wState (by decide)

/-- C5, counterexample.  In the C3 scenario, the final-cycle tick has a
nonzero threshold (6), a Y-axis deviation exceeding it, and pre-tick offsets
all zero; the tick resets the countdown to 1000 as claimed, but the committed
offset is NOT left untouched: the X axis (scanned before Y) has already been
committed the value 100. -/
theorem c5_counterexample :
    cfgC3.gyroMovementCalibrationThreshold ≠ 0 ∧
    c3mid.calibratingG = 1 ∧
    movementExceeds cfgC3.gyroMovementCalibrationThreshold
      (devPush c3mid.var.y ((cfgC3.align ⟨100, 200, 0⟩).y)) ∧
    c3mid.gyroZero = ⟨0, 0, 0⟩ ∧
    gyroUpdate cfgC3 (some ⟨100, 200, 0⟩) c3mid = c3run ∧
    c3run.calibratingG = 1000 ∧
    c3run.gyroZero.x = 100 := by
  obtain ⟨h1, h2, _, h4, h5, h6⟩ := c3_run_facts
  have hsplit : gyroUpdate cfgC3 (some ⟨100, 200, 0⟩) c3mid = c3run := by
    unfold c3run c3ins c3mid
    rw [runTicks_append]
    rfl
  refine ⟨by decide, h4, ?_, h5, hsplit, h2, by rw [h1]⟩
  rw [h6]
  show movementExceeds 6 (devPush ⟨999, 0, 0⟩ 200)
  unfold movementExceeds devPush devVariance
  norm_num

/-- C5, amended.  If on the final calibration cycle (countdown 1) some
axis's deviation exceeds a nonzero movementThreshold, then the countdown is
reset to totalCycles without being decremented that tick,
`isGyroCalibrationComplete()` stays false for at least totalCycles further
ticks, and the offsets of the first failing axis and of every axis after it
in scan order are left untouched — but axes BEFORE the first failing axis
that passed their own check have already been committed (see the
counterexample), so only the failing-and-later offsets are guaranteed
unchanged. -/
theorem c5_amended_thm {σ : Type} (cfg : GyroCfg σ) (r : Triple ℤ) (s : GyroState σ)
    (hfin : s.calibratingG = 1)
    (hthr : cfg.gyroMovementCalibrationThreshold ≠ 0)
    (hsome : movementExceeds cfg.gyroMovementCalibrationThreshold (devPush s.var.x (cfg.align r).x) ∨
             movementExceeds cfg.gyroMovementCalibrationThreshold (devPush s.var.y (cfg.align r).y) ∨
             movementExceeds cfg.gyroMovementCalibrationThreshold (devPush s.var.z (cfg.align r).z)) :
    (gyroUpdate cfg (some r) s).calibratingG = gyroCalculateCalibratingCycles cfg ∧
    (s.gyroZero = ⟨0, 0, 0⟩ →
      (movementExceeds cfg.gyroMovementCalibrationThreshold (devPush s.var.x (cfg.align r).x) →
        (gyroUpdate cfg (some r) s).gyroZero = ⟨0, 0, 0⟩) ∧
      (¬ movementExceeds cfg.gyroMovementCalibrationThreshold (devPush s.var.x (cfg.align r).x) →
       movementExceeds cfg.gyroMovementCalibrationThreshold (devPush s.var.y (cfg.align r).y) →
        (gyroUpdate cfg (some r) s).gyroZero.y = 0 ∧
        (gyroUpdate cfg (some r) s).gyroZero.z = 0) ∧
      (¬ movementExceeds cfg.gyroMovementCalibrationThreshold (devPush s.var.x (cfg.align r).x) →
       ¬ movementExceeds cfg.gyroMovementCalibrationThreshold (devPush s.var.y (cfg.align r).y) →
       movementExceeds cfg.gyroMovementCalibrationThreshold (devPush s.var.z (cfg.align r).z) →
        (gyroUpdate cfg (some r) s).gyroZero.z = 0)) ∧
    (∀ ops : List (Option (Triple ℤ)),
      ops.length < gyroCalculateCalibratingCycles cfg →
      isGyroCalibrationComplete (runTicksO cfg ops (gyroUpdate cfg (some r) s)) = false) := by
  have hfst : gyroCalculateCalibratingCycles cfg ≠ 1 := by
    have := gyroCalc_even cfg
    omega
  have hcal := gyroUpdate_restart_any cfg r s hfin hfst hthr hsome
  refine ⟨hcal, ?_, ?_⟩
  · intro hz0
    refine ⟨?_, ?_, ?_⟩
    · intro hmx
      rw [gyroUpdate_some, (filters_preserve cfg (gyroUpdatePre cfg r s)).1,
          gyroUpdatePre_final_restart_x cfg r s hfin hfst hthr hmx, hz0]
    · intro hmx hmy
      rw [gyroUpdate_some, (filters_preserve cfg (gyroUpdatePre cfg r s)).1,
          gyroUpdatePre_final_restart_y cfg r s hfin hfst hthr hmx hmy, hz0]
      exact ⟨rfl, rfl⟩
    · intro hmx hmy hmz
      rw [gyroUpdate_some, (filters_preserve cfg (gyroUpdatePre cfg r s)).1,
          gyroUpdatePre_final_restart_z cfg r s hfin hfst hthr hmx hmy hmz]
  · intro ops hlen
    have hge := runTicksO_calibratingG_ge cfg ops (gyroUpdate cfg (some r) s)
      (by rw [hcal]; exact gyroCalc_lt cfg)
    rw [hcal] at hge
    have hne : (runTicksO cfg ops (gyroUpdate cfg (some r) s)).calibratingG ≠ 0 := by omega
    simp [isGyroCalibrationComplete, hne]

/-- C5 amended, witness: a concrete final-cycle tick whose Y axis reports
movement; the countdown resets to 1000 and completion stays false one tick
later. -/
theorem c5_amended_witness :
    (gyroUpdate cfgC3 (some ⟨0, 200, 0⟩) c5wState).calibratingG =
      gyroCalculateCalibratingCycles cfgC3 ∧
    isGyroCalibrationComplete
      (runTicksO cfgC3 [none] (gyroUpdate cfgC3 (some ⟨0, 200, 0⟩) c5wState)) = false := by
  have hmy : movementExceeds cfgC3.gyroMovementCalibrationThreshold
      (devPush c5wState.var.y ((cfgC3.align ⟨0, 200, 0⟩).y)) := by
    show movementExceeds 6 (devPush ⟨1, 0, 0⟩ 200)
    unfold movementExceeds devPush devVariance
    norm_num
  have h := c5_amended_thm cfgC3 ⟨0, 200, 0⟩ c5wState rfl (by decide) (Or.inr (Or.inl hmy))
  exact ⟨h.1, h.2.2 [none] (by decide)⟩

/-- C6, confirmed.  When the primary low-pass is disabled (cutoff 0) the
published float output of every axis is exactly the offset-subtracted
integer sample cast to float, the published integer triple is that sample
itself, and the filter state is untouched — the notch stages are never
applied, whatever their configuration. -/
theorem c6_thm {σ : Type} (cfg : GyroCfg σ) (r : Triple ℤ) (s : GyroState σ)
    (h : cfg.gyroSoftLpfHz = 0) :
    (gyroUpdate cfg (some r) s).gyroADCf =
      ⟨((gyroUpdatePre cfg r s).gyroADC.x : ℚ),
       ((gyroUpdatePre cfg r s).gyroADC.y : ℚ),
       ((gyroUpdatePre cfg r s).gyroADC.z : ℚ)⟩ ∧
    (gyroUpdate cfg (some r) s).gyroADC = (gyroUpdatePre cfg r s).gyroADC ∧
    (gyroUpdate cfg (some r) s).fstate = (gyroUpdatePre cfg r s).fstate := by
  rw [gyroUpdate_some, gyroApplyFilters_bypass cfg _ h]
  exact ⟨rfl, rfl, rfl⟩

/-- C6, witness: both notch centre frequencies nonzero, low-pass disabled. -/
theorem c6_witness :
    (gyroUpdate cfgC6w (some ⟨7, -3, 5⟩) c8wState).gyroADCf =
      ⟨((gyroUpdatePre cfgC6w ⟨7, -3, 5⟩ c8wState).gyroADC.x : ℚ),
       ((gyroUpdatePre cfgC6w ⟨7, -3, 5⟩ c8wState).gyroADC.y : ℚ),
       ((gyroUpdatePre cfgC6w ⟨7, -3, 5⟩ c8wState).gyroADC.z : ℚ)⟩ ∧
    (gyroUpdate cfgC6w (some ⟨7, -3, 5⟩) c8wState).gyroADC =
      (gyroUpdatePre cfgC6w ⟨7, -3, 5⟩ c8wState).gyroADC ∧
    (gyroUpdate cfgC6w (some ⟨7, -3, 5⟩) c8wState).fstate =
      (gyroUpdatePre cfgC6w ⟨7, -3, 5⟩ c8wState).fstate :=
  c6_thm cfgC6w ⟨7, -3, 5⟩ c8wState rfl

/-- C7, counterexample.  With the primary stage enabled and instantiated by
a single-pole kernel with coefficient 1/2 and zero held state, one calibrated
tick on raw sample 1 publishes the float 1/2 and the integer `lrintf(1/2) = 0`
(ties to even under the C default rounding mode), whereas
round-ties-away-from-zero of 1/2 is 1 — the published integer is NOT the
ties-away rounding of the published float. -/
theorem c7_counterexample :
    c7run.gyroADCf.x = 1 / 2 ∧
    c7run.gyroADC.x = 0 ∧
    roundTiesAway (1 / 2) = 1 ∧
    c7run.gyroADC.x ≠ roundTiesAway c7run.gyroADCf.x := by
  have hf : c7run.gyroADCf.x = 1 / 2 := by
    show ((((1 : ℤ) : ℚ)) / 2 : ℚ) = 1 / 2
    norm_num
  have hi : c7run.gyroADC.x = rint (((1 : ℤ) : ℚ) / 2) := rfl
  have hr : rint (((1 : ℤ) : ℚ) / 2) = 0 := by
    unfold rint
    norm_num
  have ht : roundTiesAway (1 / 2) = 1 := by
    unfold roundTiesAway
    norm_num
  refine ⟨hf, by rw [hi, hr], ht, ?_⟩
  rw [hi, hr, hf, ht]
  omega

/-- C7, amended.  On every published tick the integer output equals
`lrintf` of the float output, where `lrintf` (under the C default rounding
mode) rounds to nearest with ties to even rather than away from zero; the
two rounding rules agree whenever the float output is not exactly halfway
between two integers. -/
theorem c7_amended_thm {σ : Type} (cfg : GyroCfg σ) (r : Triple ℤ) (s : GyroState σ) :
    (gyroUpdate cfg (some r) s).gyroADC.x = rint ((gyroUpdate cfg (some r) s).gyroADCf.x) ∧
    (gyroUpdate cfg (some r) s).gyroADC.y = rint ((gyroUpdate cfg (some r) s).gyroADCf.y) ∧
    (gyroUpdate cfg (some r) s).gyroADC.z = rint ((gyroUpdate cfg (some r) s).gyroADCf.z) ∧
    (∀ q : ℚ, q - (⌊q⌋ : ℚ) ≠ 1 / 2 → rint q = roundTiesAway q) := by
  refine ⟨?_, ?_, ?_, rint_eq_roundTiesAway⟩ <;>
  · rw [gyroUpdate_some]
    unfold gyroApplyFilters
    split_ifs
    · rfl
    · exact (rint_intCast _).symm

/-- C7 amended, witness: the round-trip at a concrete tick, and agreement of
the two rounding rules away from a tie (at 3/4). -/
theorem c7_amended_witness :
    (gyroUpdate cfgC7 (some ⟨1, 1, 1⟩) (initState Unit ())).gyroADC.x =
      rint ((gyroUpdate cfgC7 (some ⟨1, 1, 1⟩) (initState Unit ())).gyroADCf.x) ∧
    ((3 : ℚ) / 4 - (⌊(3 : ℚ) / 4⌋ : ℚ) ≠ 1 / 2 ∧
      rint ((3 : ℚ) / 4) = roundTiesAway ((3 : ℚ) / 4)) := by
  have h := c7_amended_thm cfgC7 ⟨1, 1, 1⟩ (initState Unit ())
  have hne : (3 : ℚ) / 4 - (⌊(3 : ℚ) / 4⌋ : ℚ) ≠ 1 / 2 := by norm_num
  exact ⟨h.1, hne, h.2.2.2 (3 / 4) hne⟩

/-- C8, confirmed.  When the sensor read reports unavailable the tick is a
complete no-op: the state — published integers and floats, offsets,
countdown, accumulators, filter state — is returned exactly as it was. -/
theorem c8_thm {σ : Type} (cfg : GyroCfg σ) (s : GyroState σ) :
    gyroUpdate cfg none s = s := rfl

/-- C9, confirmed.  `gyroSetCalibrationCycles()` (the spec's
`beginCalibration()`) always sets the countdown to
`(CALIBRATING_GYRO_CYCLES / targetLooptime) * CALIBRATING_GYRO_CYCLES` — the
exact two-step divide-then-remultiply scaling, truncated to the `uint16_t`
countdown, which is the identity whenever the product fits in 16 bits — and
a fresh window started from ANY prior state (any countdown phase, any stale
sum/variance accumulator contents) commits offsets that are a function of
the window's own samples only: the first cycle of the new window resets the
accumulators before accumulating. -/
theorem c9_thm {σ : Type} (cfg : GyroCfg σ) (s : GyroState σ) (ins : List (Triple ℤ))
    (hthr : cfg.gyroMovementCalibrationThreshold = 0)
    (hlen : ins.length = gyroCalculateCalibratingCycles cfg)
    (htc : 2 ≤ gyroCalculateCalibratingCycles cfg) :
    (gyroSetCalibrationCycles cfg s).calibratingG =
      (CALIBRATING_GYRO_CYCLES / cfg.targetLooptime * CALIBRATING_GYRO_CYCLES) % 65536 ∧
    (CALIBRATING_GYRO_CYCLES / cfg.targetLooptime * CALIBRATING_GYRO_CYCLES < 65536 →
      (gyroSetCalibrationCycles cfg s).calibratingG =
        CALIBRATING_GYRO_CYCLES / cfg.targetLooptime * CALIBRATING_GYRO_CYCLES) ∧
    (runTicks cfg ins (gyroSetCalibrationCycles cfg s)).gyroZero = calibCommitSpec cfg ins ∧
    isGyroCalibrationComplete (runTicks cfg ins (gyroSetCalibrationCycles cfg s)) = true := by
  obtain ⟨hz, hc⟩ := calib_window_commits cfg s ins hthr hlen htc
  refine ⟨rfl, ?_, hz, ?_⟩
  · intro hlt
    exact Nat.mod_eq_of_lt hlt
  · simp [isGyroCalibrationComplete, hc]

/-- C9, witness: a window begun from a state holding stale accumulator
contents and a stale countdown commits exactly the spec offsets of its own
1000 samples. -/
theorem c9_witness :
    (runTicks cfgC1 (List.replicate 1000 rawC1) (gyroSetCalibrationCycles cfgC1 c9wState)).gyroZero =
      calibCommitSpec cfgC1 (List.replicate 1000 rawC1) ∧
    isGyroCalibrationComplete
      (runTicks cfgC1 (List.replicate 1000 rawC1) (gyroSetCalibrationCycles cfgC1 c9wState)) = true := by
  have h := c9_thm cfgC1 c9wState (List.replicate 1000 rawC1) rfl
    (by rw [List.length_replicate, tc_cfgC1]) (by rw [tc_cfgC1]; omega)
  exact ⟨h.2.2.1, h.2.2.2⟩

/-- C10, confirmed.  Across any single tick from an in-range countdown, the
countdown either stays, decreases by exactly one (only from a nonzero
value), or is reset to `gyroCalculateCalibratingCycles()`; it stays in
`uint16_t` range and can never become 65535 (the reset target is even and
the decrement only runs on nonzero values), so the `calibratingG--`
decrement never underflows. -/
theorem c10_thm {σ : Type} (cfg : GyroCfg σ) (op : Option (Triple ℤ)) (s : GyroState σ)
    (h : s.calibratingG < 65536) :
    ((gyroUpdate cfg op s).calibratingG = s.calibratingG ∨
     (1 ≤ s.calibratingG ∧ (gyroUpdate cfg op s).calibratingG = s.calibratingG - 1) ∨
     (s.calibratingG = 1 ∧
       (gyroUpdate cfg op s).calibratingG = gyroCalculateCalibratingCycles cfg)) ∧
    (gyroUpdate cfg op s).calibratingG < 65536 ∧
    (s.calibratingG ≠ 65535 → (gyroUpdate cfg op s).calibratingG ≠ 65535) := by
  have hcases := gyroUpdate_calibratingG_cases cfg op s h
  have heven := gyroCalc_even cfg
  refine ⟨hcases, gyroUpdate_calibratingG_lt cfg op s h, ?_⟩
  intro hne
  rcases hcases with h1 | ⟨h2, h1⟩ | ⟨h2, h1⟩ <;> rw [h1] <;> omega

/-- C10, witness: a concrete mid-calibration tick decrements 5 to 4 and
stays clear of the wrap value. -/
theorem c10_witness :
    ((gyroUpdate cfgC1 (some ⟨1, 2, 3⟩) c4wState).calibratingG = c4wState.calibratingG ∨
     (1 ≤ c4wState.calibratingG ∧
       (gyroUpdate cfgC1 (some ⟨1, 2, 3⟩) c4wState).calibratingG = c4wState.calibratingG - 1) ∨
     (c4wState.calibratingG = 1 ∧
       (gyroUpdate cfgC1 (some ⟨1, 2, 3⟩) c4wState).calibratingG =
         gyroCalculateCalibratingCycles cfgC1)) ∧
    (gyroUpdate cfgC1 (some ⟨1, 2, 3⟩) c4wState).calibratingG < 65536 ∧
    (c4wState.calibratingG ≠ 65535 →
      (gyroUpdate cfgC1 (some ⟨1, 2, 3⟩) c4wState).calibratingG ≠ 65535) :=
  c10_thm cfgC1 (some ⟨1, 2, 3⟩) c4wState (by decide)
